import Mathlib

/-!
Shallow embedding of the Hydrogen CLI `link` command core
(`linkStorefront` and `createNewStorefront` from the `link` command
source) together with theorems about its behaviour.

External collaborators (interactive prompts, the admin GraphQL calls,
the local config store) are modelled as oracle values carried in an
environment record; the functions under verification are translated
directly from the TypeScript source, including JavaScript truthiness
where the source branches on `!x` for possibly-absent strings.
-/

/-- JavaScript truthiness of an optional string: `undefined` and the
empty string are falsy, every other string is truthy. -/
def jsTruthy : Option String → Bool
  | none => false
  | some s => !(s == "")

/-- The `HydrogenStorefront` record from the source:
`{id: string; title: string; productionUrl: string}`. -/
structure HydrogenStorefront where
  id : String
  title : String
  productionUrl : String
deriving DecidableEq, Repr

/-- The `storefront` field persisted in `ShopifyConfig` (`{id, title}`). -/
structure ConfigStorefront where
  id : String
  title : String
deriving DecidableEq, Repr

/-- The `ShopifyConfig` record as used by `linkStorefront`: `shop` and the
optional already-linked `storefront`. -/
structure ShopifyConfig where
  shop : Option String
  storefront : Option ConfigStorefront
deriving DecidableEq, Repr

/-- JavaScript errors observable at this level: the CLI's `AbortError`
(with its message) or an arbitrary error thrown by an external call,
identified by an opaque payload. -/
inductive JsError where
  | abortError (msg : String)
  | external (payload : String)
deriving DecidableEq, Repr

/-- The `AbortError` raised by `createNewStorefront`'s final check
(message copied verbatim from the source, typo included). -/
def unknownError : JsError :=
  .abortError
    "Unknown error ocurred. Please try again or contact support if the error persists."

/-- The `AbortError` raised when `config.shop` is not set. -/
def noShopError : JsError :=
  .abortError "No shop found in local config, login first."

/-- Result of the external `createStorefront(session, name)` call.
Modelled from the spec: `createStorefront(session, name) ->
{storefront: StorefrontSummary, jobId?: string}` (the GraphQL helper
itself is not part of the given source); per that contract a
successful call always carries a storefront, and `jobId` absence
means synchronous completion. -/
structure CreateStorefrontResult where
  storefront : HydrogenStorefront
  jobId : Option String
deriving DecidableEq, Repr

/-- Oracle environment for one `createNewStorefront` invocation:
the answer to the name prompt, the outcome of the
`createStorefront` call and the outcome of the `waitForJob` call. -/
structure CreateEnv where
  textPromptAnswer : String
  createResult : Except JsError CreateStorefrontResult
  waitResult : Except JsError Unit
deriving Repr

/-- Observable outcome of one `createNewStorefront` invocation:
the returned storefront or the propagated/raised error, whether the
body of the "Creating API tokens" task executed, the `jobId!`
argument `waitForJob` was called with (if it was called), and the
value of the `jobId` variable after the "Creating storefront" task. -/
structure CreateOutcome where
  result : Except JsError HydrogenStorefront
  tokensTaskRan : Bool
  waiterCalledWith : Option String
  jobIdAfterPhase1 : Option String
deriving Repr

/-- Final check of the pipeline: `if (!storefront) throw AbortError(...)
; return storefront`. -/
def finalCheck : Option HydrogenStorefront → Except JsError HydrogenStorefront
  | none => .error unknownError
  | some sf => .ok sf

/-- Shallow embedding of `createNewStorefront(root, session)`.

The source runs two `renderTasks` entries sequentially. Task 1
("Creating storefront") awaits `createStorefront` and assigns the
captured `storefront` and `jobId` variables; if it throws, the task
runner rejects, task 2 never executes and the error propagates.
Task 2 ("Creating API tokens") carries `skip: () => !jobId`, so its
body runs only when `jobId` is truthy; the body awaits
`waitForJob(session, jobId!)` and on any thrown error sets
`storefront = undefined`. Afterwards the final check throws
`unknownError` when no storefront is held, else the storefront is
returned. -/
def createNewStorefront (env : CreateEnv) : CreateOutcome :=
  match env.createResult with
  | .error e =>
      { result := .error e
        tokensTaskRan := false
        waiterCalledWith := none
        jobIdAfterPhase1 := none }
  | .ok res =>
      let storefront : Option HydrogenStorefront := some res.storefront
      let jobId : Option String := res.jobId
      if jsTruthy jobId then
        let storefront' : Option HydrogenStorefront :=
          match env.waitResult with
          | .ok _ => storefront
          | .error _ => none
        { result := finalCheck storefront'
          tokensTaskRan := true
          waiterCalledWith := jobId
          jobIdAfterPhase1 := jobId }
      else
        { result := finalCheck storefront
          tokensTaskRan := false
          waiterCalledWith := none
          jobIdAfterPhase1 := jobId }

/-- Oracle environment for one `linkStorefront` invocation: the answer
to the overwrite confirmation prompt, the list returned by
`getStorefronts(session)`, the value returned by the selection prompt
(`none` is the "Create a new storefront" sentinel, i.e. `null`), and
the environment for a possible `createNewStorefront` call. -/
structure LinkEnv where
  confirmAnswer : Bool
  storefronts : List HydrogenStorefront
  selectAnswer : Option String
  createEnv : CreateEnv
deriving Repr

/-- Observable outcome of one `linkStorefront` invocation: the return
value or propagated error, the `setStorefront` writes performed (in
order), how many `renderWarning` calls happened, whether
`getStorefronts` was called, whether the overwrite confirmation was
prompted, and whether `createNewStorefront` was invoked. -/
structure LinkOutcome where
  result : Except JsError (Option HydrogenStorefront)
  writes : List HydrogenStorefront
  warnings : Nat
  fetchedList : Bool
  confirmPrompted : Bool
  createInvoked : Bool
deriving Repr

/-- Shallow embedding of
`linkStorefront(root, session, config, {force, flagStorefront, cliCommand})`.

Mirrors the source: abort when `!config.shop`; when
`config.storefront?.id && !force`, prompt for overwrite and return
`undefined` on decline; fetch the storefront list; resolve
`selectedStorefront` through the explicit-flag branch
(`storefronts.find(({title}) => title === flagStorefront)`, warning +
`undefined` when absent), or the interactive branch (pick by id, or
the `null` sentinel invoking `createNewStorefront`); finally
`if (selectedStorefront) await setStorefront(root, selectedStorefront)`
and return it. -/
def linkStorefront (config : ShopifyConfig) (force : Bool)
    (flagStorefront : Option String) (env : LinkEnv) : LinkOutcome :=
  if !(jsTruthy config.shop) then
    { result := .error noShopError
      writes := []
      warnings := 0
      fetchedList := false
      confirmPrompted := false
      createInvoked := false }
  else
    let needConfirm := jsTruthy (config.storefront.map ConfigStorefront.id) && !force
    if needConfirm && !env.confirmAnswer then
      { result := .ok none
        writes := []
        warnings := 0
        fetchedList := false
        confirmPrompted := true
        createInvoked := false }
    else
      let storefronts := env.storefronts
      if jsTruthy flagStorefront then
        match storefronts.find? (fun s => s.title == flagStorefront.getD "") with
        | some m =>
            { result := .ok (some m)
              writes := [m]
              warnings := 0
              fetchedList := true
              confirmPrompted := needConfirm
              createInvoked := false }
        | none =>
            { result := .ok none
              writes := []
              warnings := 1
              fetchedList := true
              confirmPrompted := needConfirm
              createInvoked := false }
      else
        if jsTruthy env.selectAnswer then
          match storefronts.find? (fun s => s.id == env.selectAnswer.getD "") with
          | some m =>
              { result := .ok (some m)
                writes := [m]
                warnings := 0
                fetchedList := true
                confirmPrompted := needConfirm
                createInvoked := false }
          | none =>
              { result := .ok none
                writes := []
                warnings := 0
                fetchedList := true
                confirmPrompted := needConfirm
                createInvoked := false }
        else
          match (createNewStorefront env.createEnv).result with
          | .error e =>
              { result := .error e
                writes := []
                warnings := 0
                fetchedList := true
                confirmPrompted := needConfirm
                createInvoked := true }
          | .ok m =>
              { result := .ok (some m)
                writes := [m]
                warnings := 0
                fetchedList := true
                confirmPrompted := needConfirm
                createInvoked := true }

/-- Modelled from the spec: `setStorefront` / `writeLinkedConfig`
persists the linked storefront's `{id, title}` into the project's
config, keeping `shop` (the `shopify-config` helper is not part of
the given source). Used to thread local state between two
consecutive `linkStorefront` runs. -/
def configAfterWrite (config : ShopifyConfig) (m : HydrogenStorefront) :
    ShopifyConfig :=
  { config with storefront := some ⟨m.id, m.title⟩ }

/-! Concrete fixtures used by witnesses and counterexamples. -/

def sfAlpha : HydrogenStorefront :=
  ⟨"gid://shopify/HydrogenStorefront/1", "Alpha", "https://alpha.example.com"⟩

def sfAlpha2 : HydrogenStorefront :=
  ⟨"gid://shopify/HydrogenStorefront/3", "Alpha", "https://alpha2.example.com"⟩

def sfBeta : HydrogenStorefront :=
  ⟨"gid://shopify/HydrogenStorefront/2", "Beta", "https://beta.example.com"⟩

def cfgFresh : ShopifyConfig := ⟨some "my-shop.myshopify.com", none⟩

def cfgLinked : ShopifyConfig :=
  ⟨some "my-shop.myshopify.com", some ⟨sfAlpha.id, sfAlpha.title⟩⟩

def ceNoJob : CreateEnv := ⟨"My Cool Shop", .ok ⟨sfBeta, none⟩, .ok ()⟩

def ceWaitFails : CreateEnv :=
  ⟨"My Cool Shop", .ok ⟨sfBeta, some "job-1"⟩, .error (.external "job failed")⟩

def ceCreatorThrows : CreateEnv :=
  ⟨"My Cool Shop", .error (.external "network down"), .ok ()⟩

def envFlag : LinkEnv :=
  ⟨true, [sfBeta, sfAlpha, sfAlpha2], none, ceNoJob⟩

/-! ## Creation-pipeline theorems -/

/-- C2, counterexample: with the creator succeeding and returning no
`jobId` (creator result `{storefront: sfBeta, jobId: undefined}`),
the waiter is indeed never called, but the pipeline does NOT raise
`UnknownError`: the storefront held from phase 1 passes the final
check and is returned. -/
theorem createNoJobId_returns_storefront :
    (createNewStorefront ceNoJob).waiterCalledWith = none ∧
      (createNewStorefront ceNoJob).result = .ok sfBeta ∧
      (createNewStorefront ceNoJob).result ≠ .error unknownError := by
  refine ⟨rfl, rfl, ?_⟩
  intro h
  simp [createNewStorefront, ceNoJob, jsTruthy, finalCheck] at h

/-- C2 (amended): if the creator call succeeds but returns no `jobId`,
the job waiter is never called and the pipeline returns the
storefront produced by the creator (the final check passes, since
phase 1 already stored the storefront and the skipped phase 2 never
clears it). -/
theorem createNewStorefront_noJobId (env : CreateEnv)
    (sf : HydrogenStorefront)
    (hc : env.createResult = .ok ⟨sf, none⟩) :
    (createNewStorefront env).waiterCalledWith = none ∧
      (createNewStorefront env).tokensTaskRan = false ∧
      (createNewStorefront env).result = .ok sf := by
  simp [createNewStorefront, hc, jsTruthy, finalCheck]

/-- Witness for C2 (amended) at the concrete environment `ceNoJob`. -/
theorem createNewStorefront_noJobId_witness :
    ceNoJob.createResult = .ok ⟨sfBeta, none⟩ ∧
      ((createNewStorefront ceNoJob).waiterCalledWith = none ∧
        (createNewStorefront ceNoJob).tokensTaskRan = false ∧
        (createNewStorefront ceNoJob).result = .ok sfBeta) :=
  ⟨rfl, createNewStorefront_noJobId ceNoJob sfBeta rfl⟩

/-- C3: if the creator succeeds with a (truthy) `jobId` and
`waitForJob` throws, the held storefront is cleared, so the pipeline
raises the generic `UnknownError` — for every waiter error `e`, never
`e` itself (unless `e` happens to be that very error). -/
theorem createNewStorefront_waiterThrows (env : CreateEnv)
    (sf : HydrogenStorefront) (j : String) (e : JsError)
    (hc : env.createResult = .ok ⟨sf, some j⟩)
    (hj : j ≠ "")
    (hw : env.waitResult = .error e) :
    (createNewStorefront env).result = .error unknownError ∧
      (createNewStorefront env).waiterCalledWith = some j ∧
      (e ≠ unknownError → (createNewStorefront env).result ≠ .error e) := by
  have ht : jsTruthy (some j) = true := by
    simp [jsTruthy, hj]
  refine ⟨?_, ?_, ?_⟩
  · simp [createNewStorefront, hc, ht, hw, finalCheck]
  · simp [createNewStorefront, hc, ht, hw]
  · intro hne hres
    apply hne
    have : (createNewStorefront env).result = .error unknownError := by
      simp [createNewStorefront, hc, ht, hw, finalCheck]
    rw [this] at hres
    exact (Except.error.inj hres).symm

/-- Witness for C3 at the concrete environment `ceWaitFails`. -/
theorem createNewStorefront_waiterThrows_witness :
    ceWaitFails.createResult = .ok ⟨sfBeta, some "job-1"⟩ ∧
      ("job-1" : String) ≠ "" ∧
      ceWaitFails.waitResult = .error (.external "job failed") ∧
      ((createNewStorefront ceWaitFails).result = .error unknownError ∧
        (createNewStorefront ceWaitFails).waiterCalledWith = some "job-1" ∧
        (JsError.external "job failed" ≠ unknownError →
          (createNewStorefront ceWaitFails).result ≠
            .error (.external "job failed"))) :=
  ⟨rfl, by decide, rfl,
    createNewStorefront_waiterThrows ceWaitFails sfBeta "job-1"
      (.external "job failed") rfl (by decide) rfl⟩

/-- C6: if the creator call itself throws, the "Creating API tokens"
task body never executes, the skip predicate `!jobId` holds on the
still-undefined `jobId`, and the creator's original error propagates
unchanged (it is not converted into `UnknownError`). -/
theorem createNewStorefront_creatorThrows (env : CreateEnv) (e : JsError)
    (hc : env.createResult = .error e) :
    (createNewStorefront env).tokensTaskRan = false ∧
      jsTruthy (createNewStorefront env).jobIdAfterPhase1 = false ∧
      (createNewStorefront env).result = .error e := by
  simp [createNewStorefront, hc, jsTruthy]

/-- Witness for C6 at the concrete environment `ceCreatorThrows`. -/
theorem createNewStorefront_creatorThrows_witness :
    ceCreatorThrows.createResult = .error (.external "network down") ∧
      ((createNewStorefront ceCreatorThrows).tokensTaskRan = false ∧
        jsTruthy (createNewStorefront ceCreatorThrows).jobIdAfterPhase1 = false ∧
        (createNewStorefront ceCreatorThrows).result =
          .error (.external "network down")) :=
  ⟨rfl, createNewStorefront_creatorThrows ceCreatorThrows
    (.external "network down") rfl⟩

/-- C9: whenever the "Creating API tokens" task body runs, the `jobId`
variable holds a defined (indeed truthy) string, so the non-null
assertion `jobId!` passed to `waitForJob` never stands for an absent
value. -/
theorem createNewStorefront_tokensTask_jobId_defined (env : CreateEnv)
    (h : (createNewStorefront env).tokensTaskRan = true) :
    ∃ j : String, (createNewStorefront env).waiterCalledWith = some j ∧
      j ≠ "" := by
  unfold createNewStorefront at h ⊢
  cases hc : env.createResult with
  | error e => simp [hc] at h
  | ok res =>
      cases hj : res.jobId with
      | none => simp [hc, hj, jsTruthy] at h
      | some j =>
          by_cases hje : j = ""
          · simp [hc, hj, hje, jsTruthy] at h
          · exact ⟨j, by simp [hc, hj, jsTruthy, hje], hje⟩

/-- Witness for C9 at the concrete environment `ceWaitFails`. -/
theorem createNewStorefront_tokensTask_jobId_defined_witness :
    (createNewStorefront ceWaitFails).tokensTaskRan = true ∧
      ∃ j : String, (createNewStorefront ceWaitFails).waiterCalledWith = some j ∧
        j ≠ "" :=
  ⟨rfl, createNewStorefront_tokensTask_jobId_defined ceWaitFails rfl⟩

/-! ## Link-orchestrator theorems -/

/-- C5: with no `shop` in the config, `linkStorefront` aborts with the
configuration error before any network call: the storefront list is
never fetched and nothing is written. -/
theorem linkStorefront_noShop_aborts (config : ShopifyConfig) (force : Bool)
    (flagStorefront : Option String) (env : LinkEnv)
    (h : config.shop = none) :
    (linkStorefront config force flagStorefront env).result =
        .error noShopError ∧
      (linkStorefront config force flagStorefront env).fetchedList = false ∧
      (linkStorefront config force flagStorefront env).writes = [] := by
  simp [linkStorefront, h, jsTruthy]

/-- Witness for C5 at a concrete shopless config. -/
theorem linkStorefront_noShop_aborts_witness :
    (⟨none, none⟩ : ShopifyConfig).shop = none ∧
      ((linkStorefront ⟨none, none⟩ false none envFlag).result =
          .error noShopError ∧
        (linkStorefront ⟨none, none⟩ false none envFlag).fetchedList = false ∧
        (linkStorefront ⟨none, none⟩ false none envFlag).writes = []) :=
  ⟨rfl, linkStorefront_noShop_aborts ⟨none, none⟩ false none envFlag rfl⟩

/-- C4: with a shop set, a storefront already linked, `force = false`
and the user declining the overwrite confirmation, `linkStorefront`
returns `undefined` and performs no config write. -/
theorem linkStorefront_decline_noop (config : ShopifyConfig)
    (flagStorefront : Option String) (env : LinkEnv) (cs : ConfigStorefront)
    (hshop : jsTruthy config.shop = true)
    (hlinked : config.storefront = some cs)
    (hid : cs.id ≠ "")
    (hdecl : env.confirmAnswer = false) :
    (linkStorefront config false flagStorefront env).result = .ok none ∧
      (linkStorefront config false flagStorefront env).writes = [] := by
  have h1 : jsTruthy (config.storefront.map ConfigStorefront.id) = true := by
    rw [hlinked]
    simp [jsTruthy, hid]
  simp [linkStorefront, hshop, h1, hdecl]

/-- Witness for C4 at a concrete linked config with a declining user. -/
theorem linkStorefront_decline_noop_witness :
    jsTruthy cfgLinked.shop = true ∧
      cfgLinked.storefront = some ⟨sfAlpha.id, sfAlpha.title⟩ ∧
      sfAlpha.id ≠ "" ∧
      (⟨false, [sfAlpha], none, ceNoJob⟩ : LinkEnv).confirmAnswer = false ∧
      ((linkStorefront cfgLinked false (some "Alpha")
            ⟨false, [sfAlpha], none, ceNoJob⟩).result = .ok none ∧
        (linkStorefront cfgLinked false (some "Alpha")
            ⟨false, [sfAlpha], none, ceNoJob⟩).writes = []) :=
  ⟨rfl, rfl, by decide, rfl,
    linkStorefront_decline_noop cfgLinked (some "Alpha")
      ⟨false, [sfAlpha], none, ceNoJob⟩ ⟨sfAlpha.id, sfAlpha.title⟩
      rfl rfl (by decide) rfl⟩

/-- C1: with a shop set, a (truthy) `flagStorefront` and no overwrite
decline: if the fetched list contains a storefront titled exactly
`flagStorefront`, the first such storefront is persisted and
returned; if none matches, exactly one warning is emitted, the result
is `undefined` and no write occurs. -/
theorem linkStorefront_flagMatch (config : ShopifyConfig) (force : Bool)
    (f : String) (env : LinkEnv)
    (hshop : jsTruthy config.shop = true)
    (hf : f ≠ "")
    (hnd : ((jsTruthy (config.storefront.map ConfigStorefront.id) && !force) &&
        !env.confirmAnswer) = false) :
    ((∃ s ∈ env.storefronts, s.title = f) →
      ∃ m, env.storefronts.find? (fun s => s.title == f) = some m ∧
        m.title = f ∧
        (linkStorefront config force (some f) env).result = .ok (some m) ∧
        (linkStorefront config force (some f) env).writes = [m]) ∧
    ((∀ s ∈ env.storefronts, s.title ≠ f) →
      (linkStorefront config force (some f) env).result = .ok none ∧
        (linkStorefront config force (some f) env).writes = [] ∧
        (linkStorefront config force (some f) env).warnings = 1) := by
  have hft : jsTruthy (some f) = true := by simp [jsTruthy, hf]
  constructor
  · rintro ⟨s, hs, hst⟩
    have hsome : (env.storefronts.find? (fun s => s.title == f)).isSome := by
      rw [List.find?_isSome]
      exact ⟨s, hs, by simp [hst]⟩
    obtain ⟨m, hm⟩ := Option.isSome_iff_exists.mp hsome
    refine ⟨m, hm, by simpa using List.find?_some hm, ?_, ?_⟩
    · simp [linkStorefront, hshop, hnd, hft, hm]
    · simp [linkStorefront, hshop, hnd, hft, hm]
  · intro hnone
    have hfindnone : env.storefronts.find? (fun s => s.title == f) = none := by
      rw [List.find?_eq_none]
      intro s hs
      simp [hnone s hs]
    refine ⟨?_, ?_, ?_⟩ <;>
      simp [linkStorefront, hshop, hnd, hft, hfindnone]

/-- Witness for C1 at a concrete config and fetched list: the list
`[sfBeta, sfAlpha, sfAlpha2]` does contain a storefront titled
"Alpha". -/
theorem linkStorefront_flagMatch_witness :
    jsTruthy cfgFresh.shop = true ∧
      ("Alpha" : String) ≠ "" ∧
      ((jsTruthy (cfgFresh.storefront.map ConfigStorefront.id) && !false) &&
          !envFlag.confirmAnswer) = false ∧
      (((∃ s ∈ envFlag.storefronts, s.title = "Alpha") →
        ∃ m, envFlag.storefronts.find? (fun s => s.title == "Alpha") = some m ∧
          m.title = "Alpha" ∧
          (linkStorefront cfgFresh false (some "Alpha") envFlag).result =
            .ok (some m) ∧
          (linkStorefront cfgFresh false (some "Alpha") envFlag).writes = [m]) ∧
      ((∀ s ∈ envFlag.storefronts, s.title ≠ "Alpha") →
        (linkStorefront cfgFresh false (some "Alpha") envFlag).result =
            .ok none ∧
          (linkStorefront cfgFresh false (some "Alpha") envFlag).writes = [] ∧
          (linkStorefront cfgFresh false (some "Alpha") envFlag).warnings = 1)) :=
  ⟨rfl, by decide, rfl,
    linkStorefront_flagMatch cfgFresh false "Alpha" envFlag rfl (by decide) rfl⟩

/-- List lemma: `find?` returns the head of the filtered list. -/
theorem find?_eq_head?_filter {α : Type} (p : α → Bool) (l : List α) :
    l.find? p = (l.filter p).head? := by
  induction l with
  | nil => rfl
  | cons a t ih =>
      by_cases h : p a
      · rw [List.find?_cons_of_pos t h, List.filter_cons_of_pos h, List.head?_cons]
      · rw [List.find?_cons_of_neg t h, List.filter_cons_of_neg h, ih]

/-- C10: when the fetched list holds two or more storefronts titled
exactly `flagStorefront`, the explicit-name branch persists and
returns the first of them in list order (no error, no prompt). -/
theorem linkStorefront_duplicateTitles_first (config : ShopifyConfig)
    (force : Bool) (f : String) (env : LinkEnv)
    (hshop : jsTruthy config.shop = true)
    (hf : f ≠ "")
    (hnd : ((jsTruthy (config.storefront.map ConfigStorefront.id) && !force) &&
        !env.confirmAnswer) = false)
    (hdup : 2 ≤ (env.storefronts.filter (fun s => s.title == f)).length) :
    ∃ m, (env.storefronts.filter (fun s => s.title == f)).head? = some m ∧
      (linkStorefront config force (some f) env).result = .ok (some m) ∧
      (linkStorefront config force (some f) env).writes = [m] := by
  have hft : jsTruthy (some f) = true := by simp [jsTruthy, hf]
  cases hfl : (env.storefronts.filter (fun s => s.title == f)).head? with
  | none =>
      rw [List.head?_eq_none_iff] at hfl
      rw [hfl] at hdup
      simp at hdup
  | some m =>
      have hfind : env.storefronts.find? (fun s => s.title == f) = some m := by
        rw [find?_eq_head?_filter]
        exact hfl
      exact ⟨m, rfl,
        by simp [linkStorefront, hshop, hnd, hft, hfind],
        by simp [linkStorefront, hshop, hnd, hft, hfind]⟩

/-- Witness for C10: the fetched list `[sfBeta, sfAlpha, sfAlpha2]`
has two storefronts titled "Alpha". -/
theorem linkStorefront_duplicateTitles_first_witness :
    jsTruthy cfgFresh.shop = true ∧
      ("Alpha" : String) ≠ "" ∧
      ((jsTruthy (cfgFresh.storefront.map ConfigStorefront.id) && !false) &&
          !envFlag.confirmAnswer) = false ∧
      2 ≤ (envFlag.storefronts.filter (fun s => s.title == "Alpha")).length ∧
      ∃ m, (envFlag.storefronts.filter (fun s => s.title == "Alpha")).head? =
          some m ∧
        (linkStorefront cfgFresh false (some "Alpha") envFlag).result =
          .ok (some m) ∧
        (linkStorefront cfgFresh false (some "Alpha") envFlag).writes = [m] :=
  ⟨rfl, by decide, rfl, by decide,
    linkStorefront_duplicateTitles_first cfgFresh false "Alpha" envFlag rfl
      (by decide) rfl (by decide)⟩

/-- C7: every invocation performs at most one config write, and a
write happens exactly when a storefront was resolved: the write list
is `[m]` when the call returns storefront `m` and empty on every
declined, not-found, aborted or failed path. -/
theorem linkStorefront_atMostOneWrite (config : ShopifyConfig) (force : Bool)
    (flagStorefront : Option String) (env : LinkEnv) :
    (linkStorefront config force flagStorefront env).writes =
      (match (linkStorefront config force flagStorefront env).result with
        | .ok (some m) => [m]
        | _ => []) := by
  simp only [linkStorefront]
  cases h1 : jsTruthy config.shop
  · simp
  · simp only [Bool.not_true, Bool.false_eq_true, if_false]
    cases h2 : (jsTruthy (config.storefront.map ConfigStorefront.id) && !force) &&
        !env.confirmAnswer
    · cases h3 : jsTruthy flagStorefront
      · cases h4 : jsTruthy env.selectAnswer
        · cases hcr : (createNewStorefront env.createEnv).result <;> simp
        · cases hfind : env.storefronts.find?
              (fun s => s.id == env.selectAnswer.getD "") <;> simp
      · cases hfind : env.storefronts.find?
            (fun s => s.title == flagStorefront.getD "") <;> simp
    · simp

/-- C8: running `linkStorefront` twice with `force = true` and the
same (truthy) `flagStorefront`, when both fetched lists resolve the
flag to the same storefront `m`, persists `m` both times and both
calls return `m`; the second run starts from the config the first
write produced. -/
theorem linkStorefront_relink_idempotent (config : ShopifyConfig) (f : String)
    (env₁ env₂ : LinkEnv) (m : HydrogenStorefront)
    (hshop : jsTruthy config.shop = true)
    (hf : f ≠ "")
    (h₁ : env₁.storefronts.find? (fun s => s.title == f) = some m)
    (h₂ : env₂.storefronts.find? (fun s => s.title == f) = some m) :
    (linkStorefront config true (some f) env₁).result = .ok (some m) ∧
      (linkStorefront config true (some f) env₁).writes = [m] ∧
      (linkStorefront (configAfterWrite config m) true (some f) env₂).result =
        .ok (some m) ∧
      (linkStorefront (configAfterWrite config m) true (some f) env₂).writes =
        [m] := by
  have hft : jsTruthy (some f) = true := by simp [jsTruthy, hf]
  have hshop' : jsTruthy (configAfterWrite config m).shop = true := hshop
  refine ⟨?_, ?_, ?_, ?_⟩ <;>
    simp [linkStorefront, hshop, hshop', hft, h₁, h₂]

/-- Witness for C8: linking twice to "Alpha" with `force = true` over
the fetched list `[sfBeta, sfAlpha, sfAlpha2]`. -/
theorem linkStorefront_relink_idempotent_witness :
    jsTruthy cfgFresh.shop = true ∧
      ("Alpha" : String) ≠ "" ∧
      envFlag.storefronts.find? (fun s => s.title == "Alpha") = some sfAlpha ∧
      ((linkStorefront cfgFresh true (some "Alpha") envFlag).result =
          .ok (some sfAlpha) ∧
        (linkStorefront cfgFresh true (some "Alpha") envFlag).writes =
          [sfAlpha] ∧
        (linkStorefront (configAfterWrite cfgFresh sfAlpha) true (some "Alpha")
            envFlag).result = .ok (some sfAlpha) ∧
        (linkStorefront (configAfterWrite cfgFresh sfAlpha) true (some "Alpha")
            envFlag).writes = [sfAlpha]) :=
  ⟨rfl, by decide, by decide,
    linkStorefront_relink_idempotent cfgFresh "Alpha" envFlag envFlag sfAlpha
      rfl (by decide) (by decide) (by decide)⟩
